import Mathlib

/-!
Verification development for the Vikunja API core: the bulk task update
engine (pkg/models/bulk_task.go), the generic paginated read-all web handler
(code.vikunja.io/web handler, ReadAllWeb), and the team model CRUD
(pkg/models/team.go).  Go structs are embedded as Lean structures, machine
integers as Int, and the xorm session as explicit state passing over list
backed tables.  Functions of the repository that are referenced by the
included sources but whose bodies are not included (updateDone,
GetTasksByIDs, TeamMember.Create, getLimitFromPageIndex, the transaction
wrapper) are modelled from the specification; each such definition carries a
doc comment starting with "Modelled from the spec:".
-/

namespace Vikunja

/-- Task is the task model of pkg/models, restricted to the columns the bulk
update path reads, merges or persists (the Cols list of BulkTask.Update) plus
the identity, list membership and timestamp columns.  Dates are unix
timestamps.  Fields of the Go struct that the bulk path never touches in the
task row itself (assignees and labels live in separate relation tables) are
omitted. -/
structure Task where
  id : Int
  title : String
  description : String
  done : Bool
  dueDate : Int
  reminders : List Int
  repeatAfter : Int
  priority : Int
  startDate : Int
  endDate : Int
  listID : Int
  created : Int
  updated : Int
deriving DecidableEq

/-- Modelled from the spec: the recurrence pre merge transform updateDone
(declared in the task model of this repository, not included under src/).
When the payload marks the task done and the task has a positive repeat
interval, the engine recomputes all date bearing fields (due date, start
date, end date, reminders) by advancing them by one interval, and clears the
Done flag of the payload so that the task is not persisted as done (the
cleared payload flag is what the explicit false check of BulkTask.Update
later turns into a persisted Done=false).  The transform is applied per
target; it returns the transformed (target, payload) pair. -/
def updateDone (old payload : Task) : Task × Task :=
  if payload.done = true ∧ 0 < old.repeatAfter then
    ({ old with
        dueDate := old.dueDate + old.repeatAfter,
        startDate := old.startDate + old.repeatAfter,
        endDate := old.endDate + old.repeatAfter,
        reminders := old.reminders.map (fun r => r + old.repeatAfter) },
     { payload with done := false })
  else (old, payload)

/-- mergeTask embeds mergo.Merge(oldtask, &bt.Task, mergo.WithOverride):
every field of the destination is overwritten by the source field when the
source field is not the zero value of its type (0, the empty string, false,
the empty list), and kept otherwise. -/
def mergeTask (dst src : Task) : Task where
  id := if src.id = 0 then dst.id else src.id
  title := if src.title = "" then dst.title else src.title
  description := if src.description = "" then dst.description else src.description
  done := if src.done then true else dst.done
  dueDate := if src.dueDate = 0 then dst.dueDate else src.dueDate
  reminders := if src.reminders = [] then dst.reminders else src.reminders
  repeatAfter := if src.repeatAfter = 0 then dst.repeatAfter else src.repeatAfter
  priority := if src.priority = 0 then dst.priority else src.priority
  startDate := if src.startDate = 0 then dst.startDate else src.startDate
  endDate := if src.endDate = 0 then dst.endDate else src.endDate
  listID := if src.listID = 0 then dst.listID else src.listID
  created := if src.created = 0 then dst.created else src.created
  updated := if src.updated = 0 then dst.updated else src.updated

/-- processTask is the in memory part of the loop body of BulkTask.Update for
one target task: the updateDone transform, then the mergo merge of the
payload over the target, then the explicit check that a payload with
Done=false forces Done=false on the merged task (because false is the zero
value, the merge alone would treat it as "no change").  The assignee update
step writes a separate relation table and is not part of the task row. -/
def processTask (payload old : Task) : Task :=
  let p := updateDone old payload
  let merged := mergeTask p.1 p.2
  if p.2.done then merged else { merged with done := false }

/-- applyCols embeds the persistence call
s.ID(oldtask.ID).Cols("title", ..., "end_date").Update(oldtask): of the
stored row only the nine listed columns are overwritten from the merged in
memory task; every other column of the row keeps its stored value. -/
def applyCols (row m : Task) : Task :=
  { row with
      title := m.title
      description := m.description
      done := m.done
      dueDate := m.dueDate
      reminders := m.reminders
      repeatAfter := m.repeatAfter
      priority := m.priority
      startDate := m.startDate
      endDate := m.endDate }

/-- persistOne is the stored row a single target task ends up as after one
iteration of the BulkTask.Update loop: the nine mutable columns are taken
from the processed in memory task, the rest from the stored row. -/
def persistOne (old payload : Task) : Task :=
  applyCols old (processTask payload old)

/-- Modelled from the spec: GetTasksByIDs (declared in the task model, not
included under src/) resolves the task_ids set of the payload against the
store. -/
def getTasksByIDs (db : List Task) (ids : List Int) : List Task :=
  db.filter (fun t => ids.contains t.id)

/-- BulkError covers the two bulk specific errors of
checkIfTasksAreOnTheSameList: ErrBulkTasksNeedAtLeastOne and
ErrBulkTasksMustBeInSameList (which carries the two conflicting list ids). -/
inductive BulkError where
  | needAtLeastOne
  | mustBeInSameList (shouldBeID : Int) (isID : Int)
deriving DecidableEq

/-- checkIfTasksAreOnTheSameList embeds the check of bulk_task.go: an empty
resolved target set is ErrBulkTasksNeedAtLeastOne; otherwise the list id of
every target is compared against the list id of the first target and the
first mismatch yields ErrBulkTasksMustBeInSameList with both ids. -/
def checkIfTasksAreOnTheSameList (tasks : List Task) : Option BulkError :=
  match tasks with
  | [] => some .needAtLeastOne
  | t0 :: _ =>
    match tasks.find? (fun t => t.listID != t0.listID) with
    | some t => some (.mustBeInSameList t0.listID t.listID)
    | none => none

/-- persistTask updates, in the store, the row whose id matches the id of the
merged task (s.ID(oldtask.ID) after the merge), writing only the nine
mutable columns. -/
def persistTask (db : List Task) (m : Task) : List Task :=
  db.map (fun r => if r.id = m.id then applyCols r m else r)

/-- bulkTaskUpdate is the bulk update operation as dispatched by the web
handler: CanUpdate runs checkIfTasksAreOnTheSameList and a failing check
prevents Update from running (the store is returned unchanged together with
the error); otherwise the Update loop processes and persists each resolved
target in order. -/
def bulkTaskUpdate (db : List Task) (ids : List Int) (payload : Task) :
    List Task × Option BulkError :=
  let tasks := getTasksByIDs db ids
  match checkIfTasksAreOnTheSameList tasks with
  | some e => (db, some e)
  | none => (tasks.foldl (fun d t => persistTask d (processTask payload t)) db, none)

/-! The generic read-all web handler (ReadAllWeb of code.vikunja.io/web).
Query parameters are modelled after parsing: none stands for an empty or
absent parameter (the handler substitutes the default before strconv.Atoi
can run), some n for a parameter that parsed to the integer n.  A parameter
that does not parse is rejected with 400 before any of the modelled logic
runs and is not claim relevant.  Errors are (status code, message) pairs as
built by echo.NewHTTPError. -/

/-- checkPagination embeds the pagination input handling of ReadAllWeb: the
page parameter defaults to 1 when absent and negative values are rejected;
the per_page parameter defaults to 0 when absent, a zero value is replaced
by the configured maximum, values below 1 are rejected, and values above the
configured maximum are clamped to it. -/
def checkPagination (maxItemsPerPage : Int) (page perPage : Option Int) :
    Except (Int × String) (Int × Int) :=
  let pageNumber := page.getD 1
  if pageNumber < 0 then .error (400, "Page number cannot be negative.")
  else
    let perPageNumber := perPage.getD 0
    let perPageNumber := if perPageNumber = 0 then maxItemsPerPage else perPageNumber
    if perPageNumber < 1 then .error (400, "Per page amount cannot be negative.")
    else
      let perPageNumber :=
        if maxItemsPerPage < perPageNumber then maxItemsPerPage else perPageNumber
      .ok (pageNumber, perPageNumber)

/-- ceilDiv n p is the real ceiling of n / p for positive p, embedding
math.Ceil(float64(n) / float64(p)) exactly (the float computation is exact
for the representable magnitudes involved).  Int division is Euclidean,
hence floor division for a positive divisor, so negating twice yields the
ceiling. -/
def ceilDiv (n p : Int) : Int := -(-n / p)

/-- computeNumberOfPages embeds the page count computation of ReadAllWeb:
the ceiling of numberOfItems over perPageNumber, replaced by 1 when the page
number is negative (the "return all results" mode), and finally replaced by
0 when the result set is empty. -/
def computeNumberOfPages (pageNumber : Int) (resultCount : Nat)
    (numberOfItems perPageNumber : Int) : Int :=
  let n := ceilDiv numberOfItems perPageNumber
  let n := if pageNumber < 0 then 1 else n
  if resultCount = 0 then 0 else n

/-- readAllWeb composes the handler: pagination checking, the ReadAll call of
the bound resource (abstracted as a function from page and per page to the
result count and the total item count), and the page count computation.  The
ok value is the pair of the x-pagination-result-count and
x-pagination-total-pages response headers. -/
def readAllWeb (maxItemsPerPage : Int) (page perPage : Option Int)
    (readAll : Int → Int → Nat × Int) : Except (Int × String) (Nat × Int) :=
  match checkPagination maxItemsPerPage page perPage with
  | .error e => .error e
  | .ok pq =>
    let r := readAll pq.1 pq.2
    .ok (r.1, computeNumberOfPages pq.1 r.1 r.2 pq.2)

/-! The team model (pkg/models/team.go).  The xorm session is embedded as a
record of list backed tables; autoincrement primary keys are embedded as
explicit next-id counters. -/

/-- User is the user model (pkg/user), restricted to the fields the team
code reads: identity, username and email. -/
structure User where
  id : Int
  username : String
  email : String
deriving DecidableEq

/-- TeamUser is the team member row as returned by the member query of
addMoreInfoToTeams: a user extended with the admin flag and the team id. -/
structure TeamUser where
  user : User
  admin : Bool
  teamID : Int
deriving DecidableEq

/-- Team is the team model.  createdBy and members are derived fields
(xorm:"-"): they are not stored columns, and rows loaded from the store
carry none for createdBy and an empty members list. -/
structure Team where
  id : Int
  name : String
  description : String
  createdByID : Int
  createdBy : Option User
  members : List TeamUser
  created : Int
  updated : Int
deriving DecidableEq

/-- TeamMember is the stored team membership relation row. -/
structure TeamMember where
  id : Int
  teamID : Int
  username : String
  userID : Int
  admin : Bool
  created : Int
deriving DecidableEq

/-- Modelled from the spec: the team to namespace grant relation row
(TeamNamespace, not included under src/), carrying the referencing team
id. -/
structure TeamNamespace where
  teamID : Int
  namespaceID : Int
deriving DecidableEq

/-- Modelled from the spec: the team to list grant relation row (TeamList,
not included under src/), carrying the referencing team id. -/
structure TeamList where
  teamID : Int
  listID : Int
deriving DecidableEq

/-- TeamsDB is the session state for the team operations: the users, teams,
team_members, team_namespaces and team_lists tables plus the autoincrement
counters for teams and team_members. -/
structure TeamsDB where
  users : List User
  teams : List Team
  teamMembers : List TeamMember
  teamNamespaces : List TeamNamespace
  teamLists : List TeamList
  nextTeamID : Int
  nextMemberID : Int
deriving DecidableEq

/-- TeamError covers the team model errors the embedded operations can
produce: ErrTeamNameCannotBeEmpty, ErrTeamDoesNotExist and
ErrGenericForbidden. -/
inductive TeamError where
  | nameCannotBeEmpty
  | doesNotExist (id : Int)
  | genericForbidden
deriving DecidableEq

/-- Auth is the principal abstraction (web.Auth): an authenticated user or a
link sharing pseudo principal (models.LinkSharing). -/
inductive Auth where
  | user (u : User)
  | link (shareID : Int)
deriving DecidableEq

/-- containsSub hay needle decides whether needle occurs as a contiguous
substring of hay; it embeds the SQL LIKE pattern with the search term
between two percent signs. -/
def containsSub (hay needle : List Char) : Bool :=
  match hay with
  | [] => needle.isEmpty
  | c :: t => needle.isPrefixOf (c :: t) || containsSub t needle

/-- blankTeamUsers embeds the member loop of addMoreInfoToTeams on the
fetched user rows: every row whose team id belongs to one of the teams being
enriched has its email blanked in place (the rows are shared by pointer with
the createdBy lookup, so the blanking is applied to the row set once). -/
def blankTeamUsers (teams : List Team) (users : List TeamUser) : List TeamUser :=
  users.map (fun u =>
    if teams.any (fun t => t.id == u.teamID) then
      { u with user := { u.user with email := "" } }
    else u)

/-- addMoreInfoToTeams embeds the enrichment step shared by the team read
one and read all paths: for each team, the fetched user rows carrying its
team id are appended to its members with their emails blanked, and the
createdBy field is resolved from the same (blanked) row set by the creator
id.  The fetched rows are passed in as the result of the user join query. -/
def addMoreInfoToTeams (users : List TeamUser) (teams : List Team) : List Team :=
  let blanked := blankTeamUsers teams users
  teams.map (fun team =>
    { team with
        members := team.members ++ blanked.filter (fun u => u.teamID == team.id)
        createdBy :=
          (blanked.find? (fun u => u.user.id == team.createdByID)).map (fun u => u.user) })

/-- fetchTeamUsers embeds the membership branch of the user join query of
addMoreInfoToTeams: one row per team_members row of a selected team, joined
with the users table.  (The owner branch of the SQL union only adds creator
rows for the createdBy lookup and affects no claim.) -/
def fetchTeamUsers (db : TeamsDB) (teamIDs : List Int) : List TeamUser :=
  db.teamMembers.filterMap (fun m =>
    if teamIDs.contains m.teamID then
      (db.users.find? (fun u => u.id == m.userID)).map
        (fun u => { user := u, admin := m.admin, teamID := m.teamID })
    else none)

/-- getTeamByID embeds GetTeamByID: non positive ids and missing rows yield
ErrTeamDoesNotExist; a found team is enriched by addMoreInfoToTeams. -/
def getTeamByID (db : TeamsDB) (id : Int) : Except TeamError Team :=
  if id < 1 then .error (.doesNotExist id)
  else
    match db.teams.find? (fun t => t.id == id) with
    | none => .error (.doesNotExist id)
    | some t => .ok ((addMoreInfoToTeams (fetchTeamUsers db [t.id]) [t]).headD t)

/-- Modelled from the spec: getLimitFromPageIndex (not included under src/)
turns the 1-based page and per page values into an SQL limit and offset; a
negative page means the "no pagination" mode with no limit. -/
def getLimitFromPageIndex (page perPage : Int) : Int × Int :=
  if page < 0 then (0, 0) else (perPage, perPage * (page - 1))

/-- teamReadAll embeds Team.ReadAll: link sharing principals are rejected
outright with ErrGenericForbidden and nil results; for a user the teams
joined with a membership row of that user and matching the search term are
loaded (with limit and offset when pagination is active), enriched, and
returned together with the result count and the unlimited total count.  The
quadruple mirrors the Go return values (result, resultCount,
numberOfTotalItems, err). -/
def teamReadAll (db : TeamsDB) (a : Auth) (search : String) (page perPage : Int) :
    Option (List Team) × Nat × Int × Option TeamError :=
  match a with
  | .link _ => (none, 0, 0, some .genericForbidden)
  | .user u =>
    let matching := db.teams.filter (fun t =>
      db.teamMembers.any (fun m => m.teamID == t.id && m.userID == u.id) &&
      containsSub t.name.toList search.toList)
    let ls := getLimitFromPageIndex page perPage
    let pageTeams := if 0 < ls.1 then (matching.drop ls.2.toNat).take ls.1.toNat else matching
    let all := addMoreInfoToTeams (fetchTeamUsers db (pageTeams.map (fun t => t.id))) pageTeams
    (some all, all.length, (matching.length : Int), none)

/-- teamCreate embeds Team.Create: an empty name is rejected with
ErrTeamNameCannotBeEmpty before anything is persisted; otherwise the team
row is inserted with the caller as creator and a fresh id, and the creator
is inserted as the first member with the admin flag set (TeamMember.Create,
not included under src/, is modelled from the spec: it resolves the doer
username back to the doer and inserts the membership row).  The metrics
counter update is fire and forget and not part of the session state. -/
def teamCreate (db : TeamsDB) (doer : User) (t : Team) : TeamsDB × Except TeamError Team :=
  if t.name = "" then (db, .error .nameCannotBeEmpty)
  else
    let newTeam : Team :=
      { t with id := db.nextTeamID, createdByID := doer.id, createdBy := some doer }
    let db1 : TeamsDB :=
      { db with
          teams := db.teams ++ [{ newTeam with createdBy := none, members := [] }]
          nextTeamID := db.nextTeamID + 1 }
    let tm : TeamMember :=
      { id := db1.nextMemberID, teamID := newTeam.id, username := doer.username,
        userID := doer.id, admin := true, created := 0 }
    ({ db1 with
        teamMembers := db1.teamMembers ++ [tm]
        nextMemberID := db1.nextMemberID + 1 },
     .ok newTeam)

/-- teamDeleteSteps embeds the statement sequence of Team.Delete: delete the
team row by id, then the team_members, team_namespaces and team_lists rows
referencing it, stopping at the first failing statement.  The fi flags are
the failure oracle for the four statements (a failing SQL statement has no
effect of its own). -/
def teamDeleteSteps (f1 f2 f3 f4 : Bool) (tid : Int) (db : TeamsDB) :
    Except Unit TeamsDB :=
  if f1 then .error () else
  let db := { db with teams := db.teams.filter (fun t => t.id != tid) }
  if f2 then .error () else
  let db := { db with teamMembers := db.teamMembers.filter (fun m => m.teamID != tid) }
  if f3 then .error () else
  let db := { db with teamNamespaces := db.teamNamespaces.filter (fun r => r.teamID != tid) }
  if f4 then .error () else
  .ok { db with teamLists := db.teamLists.filter (fun r => r.teamID != tid) }

/-- Modelled from the spec: teamDelete wraps the statement sequence of
Team.Delete in the single logical transaction provided by the surrounding
handler session (not included under src/): when any step fails the
transaction is rolled back and nothing is committed.  The Bool of the result
is the success flag. -/
def teamDelete (f1 f2 f3 f4 : Bool) (tid : Int) (db : TeamsDB) : TeamsDB × Bool :=
  match teamDeleteSteps f1 f2 f3 f4 tid db with
  | .error _ => (db, false)
  | .ok db2 => (db2, true)

/-- WF states the referential well formedness of the session state that the
store maintains: team ids are below the autoincrement counter and every
membership row references an existing team. -/
def TeamsDB.WF (db : TeamsDB) : Prop :=
  (∀ t ∈ db.teams, t.id < db.nextTeamID) ∧
  (∀ m ∈ db.teamMembers, ∃ t ∈ db.teams, m.teamID = t.id)

instance (db : TeamsDB) : Decidable db.WF := by
  unfold TeamsDB.WF; infer_instance

/-! Theorems.  Each claim of the specification is settled by one theorem
about the embedded operations, followed by a closed witness instantiating
its hypotheses at a concrete input where the theorem has hypotheses. -/

/-- C1: for every bulk task update where a target task has a positive repeat
interval and the payload marks it done (and, being a pure done marking,
carries no date fields of its own), the persisted row for that target has
Done = false and its due date, start date, end date and reminders advanced
by exactly one repeat interval; the task is never persisted as done. -/
theorem bulk_update_repeating_done_not_persisted (old payload : Task)
    (hr : 0 < old.repeatAfter) (hd : payload.done = true)
    (hdue : payload.dueDate = 0) (hstart : payload.startDate = 0)
    (hend : payload.endDate = 0) (hrem : payload.reminders = []) :
    (persistOne old payload).done = false ∧
    (persistOne old payload).dueDate = old.dueDate + old.repeatAfter ∧
    (persistOne old payload).startDate = old.startDate + old.repeatAfter ∧
    (persistOne old payload).endDate = old.endDate + old.repeatAfter ∧
    (persistOne old payload).reminders = old.reminders.map (fun r => r + old.repeatAfter) := by
  simp [persistOne, processTask, updateDone, applyCols, mergeTask, hd, hr,
    hdue, hstart, hend, hrem]

/-- taskOldEx is a concrete stored task with a repeat interval, used by the
witnesses of the bulk update claims. -/
def taskOldEx : Task :=
  { id := 1, title := "buy milk", description := "weekly", done := false,
    dueDate := 100, reminders := [10, 20], repeatAfter := 7, priority := 2,
    startDate := 50, endDate := 60, listID := 3, created := 1, updated := 2 }

/-- taskPayloadDoneEx is the concrete pure done marking payload. -/
def taskPayloadDoneEx : Task :=
  { id := 0, title := "", description := "", done := true, dueDate := 0,
    reminders := [], repeatAfter := 0, priority := 0, startDate := 0,
    endDate := 0, listID := 0, created := 0, updated := 0 }

theorem bulk_update_repeating_done_not_persisted_witness :
    0 < taskOldEx.repeatAfter ∧ taskPayloadDoneEx.done = true ∧
    ((persistOne taskOldEx taskPayloadDoneEx).done = false ∧
     (persistOne taskOldEx taskPayloadDoneEx).dueDate =
       taskOldEx.dueDate + taskOldEx.repeatAfter ∧
     (persistOne taskOldEx taskPayloadDoneEx).startDate =
       taskOldEx.startDate + taskOldEx.repeatAfter ∧
     (persistOne taskOldEx taskPayloadDoneEx).endDate =
       taskOldEx.endDate + taskOldEx.repeatAfter ∧
     (persistOne taskOldEx taskPayloadDoneEx).reminders =
       taskOldEx.reminders.map (fun r => r + taskOldEx.repeatAfter)) :=
  ⟨by decide, by decide,
    bulk_update_repeating_done_not_persisted taskOldEx taskPayloadDoneEx
      (by decide) (by decide) (by decide) (by decide) (by decide) (by decide)⟩

/-- C2: for every bulk task update whose payload has Done = false, applied
to a target with Done = true and no repeat interval, the persisted row has
Done = false: the explicit false survives the zero value merge through the
dedicated check. -/
theorem bulk_update_explicit_done_false (old payload : Task)
    (hd : payload.done = false) (_ho : old.done = true)
    (_hr : old.repeatAfter = 0) :
    (persistOne old payload).done = false := by
  simp [persistOne, processTask, updateDone, applyCols, mergeTask, hd]

/-- taskDoneEx is a concrete stored task already marked done, with no repeat
interval. -/
def taskDoneEx : Task :=
  { id := 4, title := "pay rent", description := "", done := true,
    dueDate := 200, reminders := [], repeatAfter := 0, priority := 1,
    startDate := 0, endDate := 0, listID := 3, created := 1, updated := 2 }

/-- taskPayloadClearEx is the concrete payload that explicitly clears the
Done flag (every field at its zero value). -/
def taskPayloadClearEx : Task :=
  { id := 0, title := "", description := "", done := false, dueDate := 0,
    reminders := [], repeatAfter := 0, priority := 0, startDate := 0,
    endDate := 0, listID := 0, created := 0, updated := 0 }

theorem bulk_update_explicit_done_false_witness :
    taskPayloadClearEx.done = false ∧ taskDoneEx.done = true ∧
    taskDoneEx.repeatAfter = 0 ∧
    (persistOne taskDoneEx taskPayloadClearEx).done = false :=
  ⟨by decide, by decide, by decide,
    bulk_update_explicit_done_false taskDoneEx taskPayloadClearEx
      (by decide) (by decide) (by decide)⟩

/-- C9: the persistence step of the bulk update writes only the nine columns
title, description, done, due date, reminders, repeat interval, priority,
start date and end date of the target row; identity, list membership and the
timestamps keep their stored values even when the in memory merge changed
them (as the last conjunct shows, a payload with a non zero list id does
change the merged in memory copy). -/
theorem bulk_update_persist_frame (old payload : Task) :
    (persistOne old payload).id = old.id ∧
    (persistOne old payload).listID = old.listID ∧
    (persistOne old payload).created = old.created ∧
    (persistOne old payload).updated = old.updated ∧
    (persistOne old payload).title = (processTask payload old).title ∧
    (persistOne old payload).description = (processTask payload old).description ∧
    (persistOne old payload).done = (processTask payload old).done ∧
    (persistOne old payload).dueDate = (processTask payload old).dueDate ∧
    (persistOne old payload).reminders = (processTask payload old).reminders ∧
    (persistOne old payload).repeatAfter = (processTask payload old).repeatAfter ∧
    (persistOne old payload).priority = (processTask payload old).priority ∧
    (persistOne old payload).startDate = (processTask payload old).startDate ∧
    (persistOne old payload).endDate = (processTask payload old).endDate ∧
    (payload.listID ≠ 0 → (processTask payload old).listID = payload.listID) := by
  refine ⟨?_, ?_, ?_, ?_, ?_, ?_, ?_, ?_, ?_, ?_, ?_, ?_, ?_, ?_⟩
  all_goals try (simp [persistOne, applyCols]; done)
  intro h
  by_cases hc : payload.done = true ∧ 0 < old.repeatAfter <;>
    simp [processTask, updateDone, mergeTask, hc, h]
  split <;> rfl

/-- taskPayloadMoveEx is a concrete payload carrying a non zero list id, to
exercise the frame property against an in memory list id change. -/
def taskPayloadMoveEx : Task :=
  { id := 0, title := "", description := "", done := false, dueDate := 0,
    reminders := [], repeatAfter := 0, priority := 0, startDate := 0,
    endDate := 0, listID := 9, created := 0, updated := 0 }

/-- check_same_list_error: on a non empty target list containing a task on a
different list than the first target, the same list check yields the
ErrBulkTasksMustBeInSameList error carrying the list id of the first target
and the distinct list id of the first offender. -/
theorem check_same_list_error (t0 : Task) (ts : List Task)
    (hex : ∃ t ∈ t0 :: ts, t.listID ≠ t0.listID) :
    ∃ b, t0.listID ≠ b ∧
      checkIfTasksAreOnTheSameList (t0 :: ts) =
        some (.mustBeInSameList t0.listID b) := by
  rcases hf : (t0 :: ts).find? (fun t => t.listID != t0.listID) with _ | u
  · exfalso
    obtain ⟨t, ht, hne⟩ := hex
    have hnone := List.find?_eq_none.mp hf t ht
    simp only [bne_iff_ne, ne_eq, not_not] at hnone
    exact hne hnone
  · have hp := List.find?_some hf
    simp only [bne_iff_ne, ne_eq] at hp
    exact ⟨u.listID, fun hEq => hp hEq.symm,
      by simp [checkIfTasksAreOnTheSameList, hf]⟩

/-- check_same_list_ok: on a non empty target list whose tasks all carry the
list id of the first target, the same list check passes. -/
theorem check_same_list_ok (t0 : Task) (ts : List Task)
    (hall : ∀ t ∈ t0 :: ts, t.listID = t0.listID) :
    checkIfTasksAreOnTheSameList (t0 :: ts) = none := by
  have hf : (t0 :: ts).find? (fun t => t.listID != t0.listID) = none := by
    rw [List.find?_eq_none]
    intro t ht
    simp only [bne_iff_ne, ne_eq, not_not]
    exact hall t ht
  simp [checkIfTasksAreOnTheSameList, hf]

/-- C5: a bulk task update whose resolved targets do not all belong to the
same list fails with ErrBulkTasksMustBeInSameList naming the two conflicting
list ids, and the store is left untouched; a non empty resolved target set
all on one list passes the check. -/
theorem bulk_update_same_list_check (db : List Task) (ids : List Int) (payload : Task) :
    (∀ t0 ts, getTasksByIDs db ids = t0 :: ts →
      (∃ t ∈ getTasksByIDs db ids, t.listID ≠ t0.listID) →
      ∃ b, t0.listID ≠ b ∧
        bulkTaskUpdate db ids payload = (db, some (.mustBeInSameList t0.listID b))) ∧
    (∀ t0 ts, getTasksByIDs db ids = t0 :: ts →
      (∀ t ∈ getTasksByIDs db ids, t.listID = t0.listID) →
      checkIfTasksAreOnTheSameList (getTasksByIDs db ids) = none) := by
  constructor
  · intro t0 ts h hex
    rw [h] at hex
    obtain ⟨b, hb, hchk⟩ := check_same_list_error t0 ts hex
    refine ⟨b, hb, ?_⟩
    simp only [bulkTaskUpdate, h, hchk]
  · intro t0 ts h hall
    rw [h] at hall ⊢
    exact check_same_list_ok t0 ts hall

/-- taskListAEx, taskListBEx and taskListA2Ex are concrete stored tasks: the
first and third share list 1, the second sits on list 2. -/
def taskListAEx : Task := { taskOldEx with id := 11, listID := 1 }

def taskListBEx : Task := { taskOldEx with id := 12, listID := 2 }

def taskListA2Ex : Task := { taskOldEx with id := 13, listID := 1 }

theorem bulk_update_same_list_check_witness :
    getTasksByIDs [taskListAEx, taskListBEx] [11, 12] = [taskListAEx, taskListBEx] ∧
    (∃ b, taskListAEx.listID ≠ b ∧
      bulkTaskUpdate [taskListAEx, taskListBEx] [11, 12] taskPayloadDoneEx =
        ([taskListAEx, taskListBEx], some (.mustBeInSameList taskListAEx.listID b))) ∧
    checkIfTasksAreOnTheSameList (getTasksByIDs [taskListAEx, taskListA2Ex] [11, 13]) = none :=
  ⟨by decide,
    (bulk_update_same_list_check [taskListAEx, taskListBEx] [11, 12] taskPayloadDoneEx).1
      taskListAEx [taskListBEx] (by decide) (by decide),
    (bulk_update_same_list_check [taskListAEx, taskListA2Ex] [11, 13] taskPayloadDoneEx).2
      taskListAEx [taskListA2Ex] (by decide) (by decide)⟩

/-- Counterexample to C3 as stated: the handler only rejects strictly
negative page numbers, so the read all request with page = 0 is not rejected
even though pagination is enabled; it passes the pagination check with the
page number 0. -/
theorem readAll_page_zero_accepted :
    checkPagination 50 (some 0) (some 10) = .ok (0, 10) := rfl

/-- C3 (amended): a perPage of zero or omitted is replaced by the configured
maximum; a perPage above the configured maximum is clamped to it; a negative
perPage is rejected with a 400 error; and a negative page value is rejected
with a 400 error (page values of 0 or more, in particular page = 0, pass the
check). -/
theorem readAll_pagination_amended (maxPP : Int) (page perPage : Option Int)
    (hmax : 1 ≤ maxPP) :
    ((perPage = none ∨ perPage = some 0) → 0 ≤ page.getD 1 →
      checkPagination maxPP page perPage = .ok (page.getD 1, maxPP)) ∧
    (∀ p, perPage = some p → maxPP < p → 0 ≤ page.getD 1 →
      checkPagination maxPP page perPage = .ok (page.getD 1, maxPP)) ∧
    (∀ p, perPage = some p → p < 0 → 0 ≤ page.getD 1 →
      checkPagination maxPP page perPage =
        .error (400, "Per page amount cannot be negative.")) ∧
    (page.getD 1 < 0 →
      checkPagination maxPP page perPage =
        .error (400, "Page number cannot be negative.")) := by
  refine ⟨?_, ?_, ?_, ?_⟩
  · rintro (rfl | rfl) hpage <;>
      simp [checkPagination, not_lt.mpr hpage, not_lt.mpr hmax, lt_irrefl]
  · rintro p rfl hp hpage
    have h0 : p ≠ 0 := by omega
    have h1 : ¬p < 1 := by omega
    simp [checkPagination, not_lt.mpr hpage, h0, h1, hp]
  · rintro p rfl hp hpage
    have h0 : p ≠ 0 := by omega
    have h1 : p < 1 := by omega
    simp [checkPagination, not_lt.mpr hpage, h0, h1]
  · intro hpage
    simp [checkPagination, hpage]

theorem readAll_pagination_amended_witness :
    (1 : Int) ≤ 50 ∧
    checkPagination 50 (some 2) none = .ok (2, 50) ∧
    checkPagination 50 (some 2) (some 100) = .ok (2, 50) ∧
    checkPagination 50 (some 2) (some (-5)) =
      .error (400, "Per page amount cannot be negative.") ∧
    checkPagination 50 (some (-1)) (some 10) =
      .error (400, "Page number cannot be negative.") :=
  ⟨by decide,
    (readAll_pagination_amended 50 (some 2) none (by decide)).1 (Or.inl rfl) (by decide),
    (readAll_pagination_amended 50 (some 2) (some 100) (by decide)).2.1 100 rfl
      (by decide) (by decide),
    (readAll_pagination_amended 50 (some 2) (some (-5)) (by decide)).2.2.1 (-5) rfl
      (by decide) (by decide),
    (readAll_pagination_amended 50 (some (-1)) (some 10) (by decide)).2.2.2 (by decide)⟩

/-- C4: the total pages header value of a successful read all request is the
ceiling of the total item count over the effective per page value (stated
through the Galois characterization of the ceiling), forced to 0 whenever
the returned result set is empty regardless of the total count, and forced
to 1 when pagination is disabled by a negative page number. -/
theorem readAll_page_count_formula (pn : Int) (rc : Nat) (items pp : Int) :
    (rc = 0 → computeNumberOfPages pn rc items pp = 0) ∧
    (rc ≠ 0 → pn < 0 → computeNumberOfPages pn rc items pp = 1) ∧
    (rc ≠ 0 → 0 ≤ pn → 0 < pp →
      ∀ k, computeNumberOfPages pn rc items pp ≤ k ↔ items ≤ pp * k) := by
  refine ⟨?_, ?_, ?_⟩
  · intro h; simp [computeNumberOfPages, h]
  · intro hrc hpn; simp [computeNumberOfPages, hrc, hpn]
  · intro hrc hpn hpp k
    have h : computeNumberOfPages pn rc items pp = -(-items / pp) := by
      simp [computeNumberOfPages, ceilDiv, hrc, not_lt.mpr hpn]
    rw [h, neg_le, Int.le_ediv_iff_mul_le hpp]
    constructor <;> intro h2 <;> linarith

theorem readAll_page_count_formula_witness :
    computeNumberOfPages 1 0 10 3 = 0 ∧
    computeNumberOfPages (-1) 3 10 3 = 1 ∧
    (computeNumberOfPages 1 3 10 3 ≤ 4 ↔ (10 : Int) ≤ 3 * 4) :=
  ⟨(readAll_page_count_formula 1 0 10 3).1 rfl,
    (readAll_page_count_formula (-1) 3 10 3).2.1 (by decide) (by decide),
    (readAll_page_count_formula 1 3 10 3).2.2 (by decide) (by decide) (by decide) 4⟩

theorem bulk_update_persist_frame_witness :
    taskPayloadMoveEx.listID ≠ 0 ∧
    (processTask taskPayloadMoveEx taskOldEx).listID = taskPayloadMoveEx.listID ∧
    (persistOne taskOldEx taskPayloadMoveEx).listID = taskOldEx.listID ∧
    (persistOne taskOldEx taskPayloadMoveEx).id = taskOldEx.id :=
  ⟨by decide,
    (bulk_update_persist_frame taskOldEx taskPayloadMoveEx).2.2.2.2.2.2.2.2.2.2.2.2.2
      (by decide),
    (bulk_update_persist_frame taskOldEx taskPayloadMoveEx).2.1,
    (bulk_update_persist_frame taskOldEx taskPayloadMoveEx).1⟩

/-- C8: every team read all request by a link sharing principal fails with
ErrGenericForbidden and returns nil results, whatever the search, page and
per page inputs. -/
theorem team_read_all_link_share_forbidden (db : TeamsDB) (shareID : Int)
    (search : String) (page perPage : Int) :
    teamReadAll db (.link shareID) search page perPage =
      (none, 0, 0, some .genericForbidden) := rfl

/-- C6: a successful team deletion removes exactly the team row and every
team_members, team_namespaces and team_lists row referencing the team, and a
deletion in which any cascade step fails commits nothing at all. -/
theorem team_delete_cascade_atomic (f1 f2 f3 f4 : Bool) (tid : Int) (db : TeamsDB) :
    ((teamDelete f1 f2 f3 f4 tid db).2 = true →
      (teamDelete f1 f2 f3 f4 tid db).1.teams =
        db.teams.filter (fun t => t.id != tid) ∧
      (teamDelete f1 f2 f3 f4 tid db).1.teamMembers =
        db.teamMembers.filter (fun m => m.teamID != tid) ∧
      (teamDelete f1 f2 f3 f4 tid db).1.teamNamespaces =
        db.teamNamespaces.filter (fun r => r.teamID != tid) ∧
      (teamDelete f1 f2 f3 f4 tid db).1.teamLists =
        db.teamLists.filter (fun r => r.teamID != tid)) ∧
    ((teamDelete f1 f2 f3 f4 tid db).2 = false →
      (teamDelete f1 f2 f3 f4 tid db).1 = db) := by
  cases f1 <;> cases f2 <;> cases f3 <;> cases f4 <;>
    simp [teamDelete, teamDeleteSteps]

/-- userAEx, teamEx, teamOtherEx and teamsDBEx form the concrete session
state used by the team witnesses: two teams, two membership rows, two
namespace grants and one list grant. -/
def userAEx : User := { id := 100, username := "alice", email := "alice@example.com" }

def teamEx : Team :=
  { id := 7, name := "Ops", description := "", createdByID := 100,
    createdBy := none, members := [], created := 0, updated := 0 }

def teamOtherEx : Team := { teamEx with id := 8, name := "Dev" }

def teamsDBEx : TeamsDB :=
  { users := [userAEx],
    teams := [teamEx, teamOtherEx],
    teamMembers :=
      [{ id := 1, teamID := 7, username := "alice", userID := 100, admin := true, created := 0 },
       { id := 2, teamID := 8, username := "alice", userID := 100, admin := false, created := 0 }],
    teamNamespaces := [{ teamID := 7, namespaceID := 1 }, { teamID := 8, namespaceID := 1 }],
    teamLists := [{ teamID := 7, listID := 3 }],
    nextTeamID := 9, nextMemberID := 3 }

theorem team_delete_cascade_atomic_witness :
    (teamDelete false false false false 7 teamsDBEx).2 = true ∧
    (teamDelete false false false false 7 teamsDBEx).1.teamMembers =
      teamsDBEx.teamMembers.filter (fun m => m.teamID != 7) ∧
    (teamDelete false false true false 7 teamsDBEx).2 = false ∧
    (teamDelete false false true false 7 teamsDBEx).1 = teamsDBEx :=
  ⟨by decide,
    ((team_delete_cascade_atomic false false false false 7 teamsDBEx).1 (by decide)).2.1,
    by decide,
    (team_delete_cascade_atomic false false true false 7 teamsDBEx).2 (by decide)⟩

/-- C7: a team create call with a non empty name by user U records U as the
creator and leaves the new team with exactly one membership row, namely U
with the admin flag set; a create call with an empty name fails with the
validation error and persists nothing. -/
theorem team_create_creator_admin_member (db : TeamsDB) (doer : User) (t : Team) :
    (db.WF → t.name ≠ "" →
      ∃ team, (teamCreate db doer t).2 = .ok team ∧
        team.createdByID = doer.id ∧ team.createdBy = some doer ∧
        (teamCreate db doer t).1.teamMembers.filter (fun m => m.teamID == team.id) =
          [{ id := db.nextMemberID, teamID := team.id, username := doer.username,
             userID := doer.id, admin := true, created := 0 }]) ∧
    (t.name = "" → teamCreate db doer t = (db, .error .nameCannotBeEmpty)) := by
  constructor
  · intro hwf hname
    refine ⟨Team.mk db.nextTeamID t.name t.description doer.id (some doer)
      t.members t.created t.updated, ?_, rfl, rfl, ?_⟩
    · simp [teamCreate, hname]
    · have hnil : db.teamMembers.filter (fun m => m.teamID == db.nextTeamID) = [] := by
        rw [List.filter_eq_nil_iff]
        intro m hm
        obtain ⟨tt, htt, heq⟩ := hwf.2 m hm
        have hlt := hwf.1 tt htt
        simp only [beq_iff_eq]
        omega
      simp [teamCreate, hname, List.filter_append, hnil]
  · intro hname
    simp [teamCreate, hname]

/-- teamNewEx is the concrete team object passed to the create call. -/
def teamNewEx : Team :=
  { id := 0, name := "Ops", description := "night shift", createdByID := 0,
    createdBy := none, members := [], created := 0, updated := 0 }

theorem team_create_creator_admin_member_witness :
    teamsDBEx.WF ∧ teamNewEx.name ≠ "" ∧
    (∃ team, (teamCreate teamsDBEx userAEx teamNewEx).2 = .ok team ∧
      team.createdByID = userAEx.id ∧ team.createdBy = some userAEx ∧
      (teamCreate teamsDBEx userAEx teamNewEx).1.teamMembers.filter
          (fun m => m.teamID == team.id) =
        [{ id := teamsDBEx.nextMemberID, teamID := team.id,
           username := userAEx.username, userID := userAEx.id,
           admin := true, created := 0 }]) ∧
    teamCreate teamsDBEx userAEx { teamNewEx with name := "" } =
      (teamsDBEx, .error .nameCannotBeEmpty) :=
  ⟨by decide, by decide,
    (team_create_creator_admin_member teamsDBEx userAEx teamNewEx).1
      (by decide) (by decide),
    (team_create_creator_admin_member teamsDBEx userAEx
      { teamNewEx with name := "" }).2 rfl⟩

/-- C10: every member of every team produced by the enrichment step shared
by the team read one and read all operations has a blanked email, whatever
user rows the join query returned, provided the teams enter the step as
loaded from the store (with no members yet). -/
theorem team_members_email_blanked (users : List TeamUser) (teams : List Team)
    (hm : ∀ t ∈ teams, t.members = []) :
    ∀ t ∈ addMoreInfoToTeams users teams, ∀ m ∈ t.members, m.user.email = "" := by
  intro t ht m hmm
  simp only [addMoreInfoToTeams] at ht
  obtain ⟨t0, ht0, rfl⟩ := List.mem_map.mp ht
  simp only [hm t0 ht0, List.nil_append] at hmm
  obtain ⟨hmb, hteq⟩ := List.mem_filter.mp hmm
  simp only [blankTeamUsers] at hmb
  obtain ⟨u0, hu0, rfl⟩ := List.mem_map.mp hmb
  by_cases hc : teams.any (fun tt => tt.id == u0.teamID)
  · simp [hc]
  · exfalso
    apply hc
    rw [List.any_eq_true]
    refine ⟨t0, ht0, ?_⟩
    simp only [if_neg hc] at hteq
    simp only [beq_iff_eq] at hteq ⊢
    exact hteq.symm

/-- teamUserRowEx is a concrete fetched member row carrying a non empty
email before the enrichment step. -/
def teamUserRowEx : TeamUser := { user := userAEx, admin := true, teamID := 7 }

theorem team_members_email_blanked_witness :
    (∀ t ∈ [teamEx], t.members = []) ∧
    (∀ t ∈ addMoreInfoToTeams [teamUserRowEx] [teamEx],
      ∀ m ∈ t.members, m.user.email = "") :=
  ⟨by decide, team_members_email_blanked [teamUserRowEx] [teamEx] (by decide)⟩

end Vikunja
